import Mathlib

/-!
# go-lambda-boilerplate: the request handler of `main.go`

A shallow embedding of `src/main.go`: the configuration loader `NewConfig`, the
logger factory `NewLogger`, the router constructor `NewRouter` and the
per-request entry point `HandleRequest`.

`main.go` is glue around three imported packages whose sources are not part of
the repository:

* `go.uber.org/zap` (logger).  The functions `main.go` calls are modelled after
  the package: a level threshold, fields added by `With` to a copy of the core,
  one record per enabled call.  Writing to standard output is made explicit: a
  logging call returns the list of records it writes.  The timestamp of a
  record is not modelled.
* `github.com/spf13/viper` (configuration).  The functions `main.go` calls are
  modelled after the package: defaults stored by lower-cased key, automatic
  lookup of the upper-cased key in the environment, and decoding of the
  settings into the struct by field name.  The process environment is an
  explicit argument.
* `github.com/luminalteam/lmdrouter` (router).  `HandleRequest` and `NewRouter`
  are written against an arbitrary implementation of the three operations they
  use (`Lmdrouter`); `lmdrouter.dispatcher` is the implementation the
  specification describes in its section 4.3.

`context.Context` arguments carry no data here (`context.Background()`) and
are dropped.
-/

/-- A Go `error` value; `Error` is its description. -/
structure GoError where
  Error : String
  deriving DecidableEq, Repr

namespace strings

/-- Go's `strings.ToLower` on ASCII text: the letters `A`-`Z` are mapped to
`a`-`z` and every other ASCII character is kept.  (On non-ASCII letters Go
applies the Unicode mapping; the configuration keys it is applied to here are
ASCII literals.) -/
def ToLower (s : String) : String := ⟨s.data.map Char.toLower⟩

/-- Go's `strings.ToUpper` on ASCII text. -/
def ToUpper (s : String) : String := ⟨s.data.map Char.toUpper⟩

/-- Go's `strings.EqualFold` on ASCII text: equality up to the case of
letters. -/
def EqualFold (a b : String) : Bool := ToLower a == ToLower b

end strings

namespace events

/-- The part of `events.APIGatewayProxyRequestContext` that `main.go` reads. -/
structure APIGatewayProxyRequestContext where
  RequestID : String := ""
  deriving DecidableEq, Repr

/-- Go's `events.APIGatewayProxyRequest`: method, path, headers, body and the
request context that carries the request identifier. -/
structure APIGatewayProxyRequest where
  Resource : String := ""
  Path : String := ""
  HTTPMethod : String := ""
  Headers : List (String × String) := []
  Body : String := ""
  RequestContext : APIGatewayProxyRequestContext := {}
  deriving DecidableEq, Repr

/-- Go's `events.APIGatewayProxyResponse`.  The defaults are Go's zero values
(a nil map is the empty list), so `{ StatusCode := 500 }` is the composite
literal `events.APIGatewayProxyResponse{StatusCode: 500}`. -/
structure APIGatewayProxyResponse where
  StatusCode : Int := 0
  Headers : List (String × String) := []
  MultiValueHeaders : List (String × List String) := []
  Body : String := ""
  IsBase64Encoded : Bool := false
  deriving DecidableEq, Repr

end events

open events

/-! ## zap -/

namespace zapcore

/-- The severities of `zapcore.Level`, in increasing order. -/
inductive Level where
  | DebugLevel
  | InfoLevel
  | WarnLevel
  | ErrorLevel
  | DPanicLevel
  | PanicLevel
  | FatalLevel
  deriving DecidableEq, Repr

/-- The numeric value of a level (`DebugLevel = -1`, `InfoLevel = 0`, ...). -/
def Level.toInt : Level → Int
  | .DebugLevel => -1
  | .InfoLevel => 0
  | .WarnLevel => 1
  | .ErrorLevel => 2
  | .DPanicLevel => 3
  | .PanicLevel => 4
  | .FatalLevel => 5

/-- Models `Level.Enabled` of the imported package zapcore: a record of
severity `lvl` passes the threshold `l` when `lvl >= l`. -/
def Level.Enabled (l lvl : Level) : Bool :=
  decide (l.toInt ≤ lvl.toInt)

/-- Models the unexported `Level.unmarshalText` of the imported package
zapcore, a switch on the text: `"debug", "DEBUG"`, `"info", "INFO", ""` (the
zero value is made useful), `"warn", "warning", "WARN", "WARNING"`,
`"error", "ERROR"`,
`"dpanic", "DPANIC"`, `"panic", "PANIC"`, `"fatal", "FATAL"`; any other text is
not recognised. -/
def Level.unmarshalText (text : String) : Option Level :=
  if text = "debug" ∨ text = "DEBUG" then some .DebugLevel
  else if text = "info" ∨ text = "INFO" ∨ text = "" then some .InfoLevel
  else if text = "warn" ∨ text = "warning" ∨ text = "WARN" ∨ text = "WARNING" then
    some .WarnLevel
  else if text = "error" ∨ text = "ERROR" then some .ErrorLevel
  else if text = "dpanic" ∨ text = "DPANIC" then some .DPanicLevel
  else if text = "panic" ∨ text = "PANIC" then some .PanicLevel
  else if text = "fatal" ∨ text = "FATAL" then some .FatalLevel
  else none

/-- Models `Level.UnmarshalText` of the imported package zapcore:
`if !l.unmarshalText(text) && !l.unmarshalText(bytes.ToLower(text))` the result
is the error `unrecognized level: "<text>"`.  `toLower` is Go's
`bytes.ToLower`, taken as a parameter; the quoting of the text in the
description is rendered with plain double quotes. -/
def Level.UnmarshalText (toLower : String → String) (text : String) : Except GoError Level :=
  match Level.unmarshalText text with
  | some l => .ok l
  | none =>
    match Level.unmarshalText (toLower text) with
    | some l => .ok l
    | none => .error ⟨"unrecognized level: \"" ++ text ++ "\""⟩

/-- A key-value field of a log record (string-valued fields only). -/
structure Field where
  Key : String
  Value : String
  deriving DecidableEq, Repr

/-- One structured log record as written to the output: severity, message and
fields. -/
structure Entry where
  Level : Level
  Message : String
  Fields : List Field
  deriving DecidableEq, Repr

/-- Models the core built by `zapcore.NewCore(encoder, os.Stdout, level)`: the
threshold and the fields already added to the encoder. -/
structure Core where
  level : Level
  fields : List Field := []
  deriving DecidableEq, Repr

/-- Models `zapcore.NewCore` with the JSON encoder and standard output as in
`NewLogger`. -/
def NewCore (level : Level) : Core :=
  { level := level }

/-- Models `Core.With`: a copy of the core with the fields appended; the
receiver is left as it is. -/
def Core.With (c : Core) (fields : List Field) : Core :=
  { c with fields := c.fields ++ fields }

/-- Models `Core.Write` guarded by `Core.Check`: the records written for one
entry, none when the severity is below the threshold. -/
def Core.Write (c : Core) (lvl : Level) (msg : String) (fields : List Field) : List Entry :=
  if c.level.Enabled lvl then [{ Level := lvl, Message := msg, Fields := c.fields ++ fields }]
  else []

end zapcore

namespace zap

open zapcore

/-- Models `zap.Logger`: a logger is its core. -/
structure Logger where
  core : Core
  deriving DecidableEq, Repr

/-- Models `zap.NewAtomicLevel()`: an atomic level set to info. -/
def NewAtomicLevel : Level := .InfoLevel

/-- Models `AtomicLevel.UnmarshalText`: the new value of the atomic level, or
the error of `Level.UnmarshalText`. -/
def AtomicLevel.UnmarshalText (toLower : String → String) (_lvl : Level) (text : String) :
    Except GoError Level :=
  Level.UnmarshalText toLower text

/-- Models `zap.New(core)` without options. -/
def New (core : Core) : Logger := { core := core }

/-- Models `zap.Error(err)` for a non-nil error: the field `error` holding the
description of the error. -/
def Error (err : GoError) : Field := { Key := "error", Value := err.Error }

/-- Models `Logger.With`: a child logger carrying the extra fields. -/
def Logger.With (l : Logger) (fields : List Field) : Logger :=
  { core := l.core.With fields }

/-- Models `Logger.Info`: the records written by the call. -/
def Logger.Info (l : Logger) (msg : String) (fields : List Field) : List Entry :=
  l.core.Write .InfoLevel msg fields

/-- Models `Logger.Error`: the records written by the call. -/
def Logger.Error (l : Logger) (msg : String) (fields : List Field) : List Entry :=
  l.core.Write .ErrorLevel msg fields

end zap

/-- Models `zap.String(key, val)`. -/
def zap.String (key val : String) : zapcore.Field := { Key := key, Value := val }

/-! ## The application -/

/-- The `AppConfig` struct of `main.go`: one string field, declared without a
struct tag. -/
structure AppConfig where
  LogLevel : String := ""
  deriving DecidableEq, Repr

/-- The `AppParams` struct of `main.go` (the `fx.In` marker has no data). -/
structure AppParams where
  Config : AppConfig
  Logger : zap.Logger
  deriving DecidableEq, Repr

/-! ## viper -/

/-- The process environment: the `NAME=value` pairs seen by `os.LookupEnv`. -/
abbrev Environ := List (String × String)

namespace viper

/-- Models the state of the global viper instance that `NewConfig` touches: the
registered defaults (keys are stored lower-cased) and the automatic-env flag.
Only string values occur. -/
structure Viper where
  defaults : List (String × String) := []
  automaticEnvApplied : Bool := false
  deriving DecidableEq, Repr

/-- Models `viper.New()`: the state of the global instance at process start. -/
def New : Viper := {}

/-- Models `viper.SetDefault(key, value)`: the default is stored under the
lower-cased key, replacing an earlier default of that key. -/
def Viper.SetDefault (v : Viper) (key value : String) : Viper :=
  { v with
    defaults :=
      (strings.ToLower key, value) :: v.defaults.filter (fun kv => kv.1 ≠ strings.ToLower key) }

/-- Models `viper.AutomaticEnv()`. -/
def Viper.AutomaticEnv (v : Viper) : Viper :=
  { v with automaticEnvApplied := true }

/-- Models viper's `getEnv`: `os.LookupEnv`, where an empty value counts as
unset (`AllowEmptyEnv` is off). -/
def getEnv (env : Environ) (key : String) : Option String :=
  match env.lookup key with
  | some val => if val ≠ "" then some val else none
  | none => none

/-- Models viper's `find` for a lower-cased key, restricted to the sources
`NewConfig` uses: with automatic env, the environment variable named by the
upper-cased key (no env prefix is set), then the default. -/
def Viper.find (v : Viper) (env : Environ) (lcaseKey : String) : Option String :=
  match (if v.automaticEnvApplied then getEnv env (strings.ToUpper lcaseKey) else none) with
  | some val => some val
  | none => v.defaults.lookup lcaseKey

/-- Models `viper.AllKeys()`: the keys viper knows about, here the keys that
have a default. -/
def Viper.AllKeys (v : Viper) : List String :=
  v.defaults.map (fun kv => kv.1)

/-- Models `viper.AllSettings()`: every known key with its current value. -/
def Viper.AllSettings (v : Viper) (env : Environ) : List (String × String) :=
  v.AllKeys.filterMap (fun k => (v.find env k).map (fun val => (k, val)))

/-- Models the decoding of a settings map into `AppConfig` as done by
`viper.Unmarshal` through the imported package mapstructure: a struct field
without a `mapstructure` tag is looked up under its Go name, here `LogLevel`,
first as an exact map key and then by a search for a key that matches the
name case-insensitively (`strings.EqualFold`); when no key matches, the field
keeps the value it had.  Decoding a string into a string field cannot fail. -/
def decode (settings : List (String × String)) (config : AppConfig) : Except GoError AppConfig :=
  match settings.lookup "LogLevel" with
  | some val => .ok { config with LogLevel := val }
  | none =>
    match settings.find? (fun kv => strings.EqualFold kv.1 "LogLevel") with
    | some kv => .ok { config with LogLevel := kv.2 }
    | none => .ok config

/-- Models `viper.Unmarshal(&config)`. -/
def Viper.Unmarshal (v : Viper) (env : Environ) (config : AppConfig) : Except GoError AppConfig :=
  decode (v.AllSettings env) config

end viper

/-- The `NewConfig` of `main.go`, run on a fresh global viper instance in the
process environment `env`; `config` starts as the zero value of `AppConfig`. -/
def NewConfig (env : Environ) : Except GoError AppConfig :=
  let v := viper.New.SetDefault "log_level" "info"
  let v := v.AutomaticEnv
  let config : AppConfig := {}
  match v.Unmarshal env config with
  | .error err => .error err
  | .ok config => .ok config

/-- The `NewLogger` of `main.go`.  The encoder configuration only affects how a
record is rendered and is not modelled; `toLower` is Go's `bytes.ToLower`. -/
def NewLogger (toLower : String → String) (config : AppConfig) : Except GoError zap.Logger :=
  let level := zap.NewAtomicLevel
  match zap.AtomicLevel.UnmarshalText toLower level config.LogLevel with
  | .error err => .error err
  | .ok level =>
    let core := zapcore.NewCore level
    let logger := zap.New core
    .ok logger

/-! ## lmdrouter -/

/-- The result of a handler or of the dispatcher: Go's pair of a response
pointer (possibly nil) and an error (possibly nil). -/
abbrev HandlerResult := Option APIGatewayProxyResponse × Option GoError

/-- The Go type of a route handler,
`func(ctx, req) (*events.APIGatewayProxyResponse, error)`. -/
abbrev Handler := APIGatewayProxyRequest → HandlerResult

/-- The operations of the imported router package that `main.go` calls:
`lmdrouter.NewRouter()`, `router.GET(pattern, handler)` and
`router.Handle(ctx, req)`.  The package is not part of the repository; the
application is written against any implementation of it. -/
structure Lmdrouter where
  Router : Type
  NewRouter : Router
  GET : Router → String → Handler → Router
  Handle : Router → APIGatewayProxyRequest → HandlerResult

namespace lmdrouter

/-- Modelled from the spec: a route registration of the Request Dispatcher
(the imported package lmdrouter, whose source is not in the repository), a
(method, path-pattern) pair mapped to a handler function. -/
structure Route where
  method : String
  pattern : String
  handler : Handler

/-- Modelled from the spec: `register(method, pathPattern, handler)` of the
Request Dispatcher (the imported package lmdrouter, whose source is not in the
repository) adds a route; registration order is kept. -/
def register (routes : List Route) (method pattern : String) (handler : Handler) : List Route :=
  routes ++ [{ method := method, pattern := pattern, handler := handler }]

/-- Modelled from the spec: the `HandlerError` of the Request Dispatcher
(the imported package lmdrouter, whose source is not in the repository),
wrapping the underlying cause. -/
def HandlerError (cause : GoError) : GoError :=
  ⟨"handler error: " ++ cause.Error⟩

/-- Modelled from the spec: `dispatch(request)` of the Request Dispatcher
(the imported package lmdrouter, whose source is not in the repository).
Patterns are exact literal paths.  When no pattern matches the path the result
is a synthesized 404 response; when the path matches but no matching route has
the method, a synthesized 405; otherwise the first registered matching route is
executed and its result returned, a handler failure being propagated as a
`HandlerError`.  The bodies of the synthesized responses are
implementation-defined and are parameters. -/
def dispatch (notFoundBody methodNotAllowedBody : String) (routes : List Route)
    (req : APIGatewayProxyRequest) : HandlerResult :=
  match routes.filter (fun r => r.pattern == req.Path) with
  | [] => (some { StatusCode := 404, Body := notFoundBody }, none)
  | r :: rs =>
    match (r :: rs).find? (fun r => r.method == req.HTTPMethod) with
    | none => (some { StatusCode := 405, Body := methodNotAllowedBody }, none)
    | some route =>
      match route.handler req with
      | (_, some cause) => (none, some (HandlerError cause))
      | (response, none) => (response, none)

/-- Modelled from the spec: the Request Dispatcher of section 4.3 as an
implementation of the imported router package, whose source is not in the
repository. -/
def dispatcher (notFoundBody methodNotAllowedBody : String) : Lmdrouter where
  Router := List Route
  NewRouter := []
  GET := fun routes pattern handler => register routes "GET" pattern handler
  Handle := dispatch notFoundBody methodNotAllowedBody

/-- A router package whose `Handle` fails with the same error on every
request, whatever is registered. -/
def failing (err : GoError) : Lmdrouter where
  Router := Unit
  NewRouter := ()
  GET := fun _ _ _ => ()
  Handle := fun _ _ => (none, some err)

end lmdrouter

/-- The handler that `NewRouter` registers for `GET /`. -/
def helloHandler : Handler :=
  fun _req => (some { StatusCode := 200, Body := "Hello, World!" }, none)

/-- The `NewRouter` of `main.go`, over the router package `L`. -/
def NewRouter (L : Lmdrouter) : L.Router :=
  let router := L.NewRouter
  L.GET router "/" helloHandler

/-- What one call of `HandleRequest` does: the records it writes to the log
output, in order, and the pair it returns; `returned = none` is the run-time
panic of dereferencing a nil response. -/
structure Invocation where
  records : List zapcore.Entry
  returned : Option (APIGatewayProxyResponse × Option GoError)
  deriving DecidableEq, Repr

/-- The `HandleRequest` of `main.go`, over the router package `L`. -/
def HandleRequest (L : Lmdrouter) (params : AppParams) (req : APIGatewayProxyRequest) :
    Invocation :=
  let logger := params.Logger.With [zap.String "correlation_id" req.RequestContext.RequestID]
  let started := logger.Info "Handling request" []
  let router := NewRouter L
  match L.Handle router req with
  | (_, some err) =>
    { records := started ++ logger.Error "Error handling request" [zap.Error err],
      returned := some ({ StatusCode := 500 }, some err) }
  | (response, none) =>
    { records := started ++ logger.Info "Request handled successfully" [],
      returned := response.map (fun r => (r, none)) }

/-! ## Basic facts on the embedding -/

/-- The two dispatcher results `HandleRequest` distinguishes: an error, or no
error. -/
theorem HandleRequest_of_error (L : Lmdrouter) (params : AppParams) (req : APIGatewayProxyRequest)
    (response : Option APIGatewayProxyResponse) (err : GoError)
    (h : L.Handle (NewRouter L) req = (response, some err)) :
    HandleRequest L params req =
      { records :=
          (params.Logger.With [zap.String "correlation_id" req.RequestContext.RequestID]).Info
              "Handling request" [] ++
            (params.Logger.With [zap.String "correlation_id" req.RequestContext.RequestID]).Error
              "Error handling request" [zap.Error err],
        returned := some ({ StatusCode := 500 }, some err) } := by
  simp only [HandleRequest, h]

theorem HandleRequest_of_no_error (L : Lmdrouter) (params : AppParams)
    (req : APIGatewayProxyRequest) (response : Option APIGatewayProxyResponse)
    (h : L.Handle (NewRouter L) req = (response, none)) :
    HandleRequest L params req =
      { records :=
          (params.Logger.With [zap.String "correlation_id" req.RequestContext.RequestID]).Info
              "Handling request" [] ++
            (params.Logger.With [zap.String "correlation_id" req.RequestContext.RequestID]).Info
              "Request handled successfully" [],
        returned := response.map (fun r => (r, none)) } := by
  simp only [HandleRequest, h]

/-- The dispatcher of the specification on the router of `NewRouter`: the
greeting for `GET /`, 405 for another method on `/`, 404 for another path. -/
theorem dispatch_NewRouter (notFoundBody methodNotAllowedBody : String)
    (req : APIGatewayProxyRequest) :
    (lmdrouter.dispatcher notFoundBody methodNotAllowedBody).Handle
        (NewRouter (lmdrouter.dispatcher notFoundBody methodNotAllowedBody)) req =
      if req.Path = "/" then
        if req.HTTPMethod = "GET" then (some { StatusCode := 200, Body := "Hello, World!" }, none)
        else (some { StatusCode := 405, Body := methodNotAllowedBody }, none)
      else (some { StatusCode := 404, Body := notFoundBody }, none) := by
  by_cases hp : req.Path = "/"
  · by_cases hm : req.HTTPMethod = "GET"
    · simp [lmdrouter.dispatcher, NewRouter, lmdrouter.register, lmdrouter.dispatch, hp, hm,
        helloHandler]
    · have hm2 : ¬ ("GET" = req.HTTPMethod) := fun h => hm h.symm
      simp [lmdrouter.dispatcher, NewRouter, lmdrouter.register, lmdrouter.dispatch, hp, hm, hm2]
  · have hp2 : ¬ ("/" = req.Path) := fun h => hp h.symm
    simp [lmdrouter.dispatcher, NewRouter, lmdrouter.register, lmdrouter.dispatch, hp, hp2]

/-! ## Dispatch and the returned response -/

/-- C1: for every request with method GET and path "/", the dispatcher of the
specification on the router built by `NewRouter` returns status 200 with body
"Hello, World!" and no error, and `HandleRequest` returns that response with a
nil error, for every logger and configuration. -/
theorem dispatch_get_root (notFoundBody methodNotAllowedBody : String) (params : AppParams)
    (req : APIGatewayProxyRequest) (hm : req.HTTPMethod = "GET") (hp : req.Path = "/") :
    (lmdrouter.dispatcher notFoundBody methodNotAllowedBody).Handle
        (NewRouter (lmdrouter.dispatcher notFoundBody methodNotAllowedBody)) req =
      (some { StatusCode := 200, Body := "Hello, World!" }, none) ∧
    (HandleRequest (lmdrouter.dispatcher notFoundBody methodNotAllowedBody) params req).returned =
      some ({ StatusCode := 200, Body := "Hello, World!" }, none) := by
  have h := dispatch_NewRouter notFoundBody methodNotAllowedBody req
  rw [if_pos hp, if_pos hm] at h
  exact ⟨h, by rw [HandleRequest_of_no_error _ params req _ h]; rfl⟩

/-- A concrete instance for C1. -/
theorem dispatch_get_root_witness :
    (lmdrouter.dispatcher "Not Found" "Method Not Allowed").Handle
        (NewRouter (lmdrouter.dispatcher "Not Found" "Method Not Allowed"))
        { Path := "/", HTTPMethod := "GET", RequestContext := { RequestID := "req-1" } } =
      (some { StatusCode := 200, Body := "Hello, World!" }, none) ∧
    (HandleRequest (lmdrouter.dispatcher "Not Found" "Method Not Allowed")
        { Config := { LogLevel := "info" }, Logger := zap.New (zapcore.NewCore .InfoLevel) }
        { Path := "/", HTTPMethod := "GET", RequestContext := { RequestID := "req-1" } }).returned =
      some ({ StatusCode := 200, Body := "Hello, World!" }, none) :=
  dispatch_get_root "Not Found" "Method Not Allowed" _ _ rfl rfl

/-- C2: whenever the dispatcher returns an error, whatever the error is,
`HandleRequest` returns the response `{StatusCode: 500}`: status 500, empty
body, no headers. -/
theorem HandleRequest_failure_response (L : Lmdrouter) (params : AppParams)
    (req : APIGatewayProxyRequest) (err : GoError)
    (h : (L.Handle (NewRouter L) req).2 = some err) :
    ∃ r e, (HandleRequest L params req).returned = some (r, e) ∧
      r.StatusCode = 500 ∧ r.Body = "" ∧ r.Headers = [] ∧ r.MultiValueHeaders = [] := by
  have h2 : L.Handle (NewRouter L) req = ((L.Handle (NewRouter L) req).1, some err) := by
    rw [← h]
  exact ⟨{ StatusCode := 500 }, some err, by rw [HandleRequest_of_error L params req _ err h2],
    rfl, rfl, rfl, rfl⟩

/-- A concrete instance for C2. -/
theorem HandleRequest_failure_response_witness :
    ∃ r e, (HandleRequest (lmdrouter.failing ⟨"table users: connection refused"⟩)
        { Config := { LogLevel := "info" }, Logger := zap.New (zapcore.NewCore .InfoLevel) }
        { Path := "/", HTTPMethod := "GET" }).returned = some (r, e) ∧
      r.StatusCode = 500 ∧ r.Body = "" ∧ r.Headers = [] ∧ r.MultiValueHeaders = [] :=
  HandleRequest_failure_response (lmdrouter.failing ⟨"table users: connection refused"⟩) _ _
    ⟨"table users: connection refused"⟩ rfl

/-- C3, as stated, fails: when the dispatcher fails, `HandleRequest` returns the
dispatcher's error next to the 500 response, so the error component of its
result is not nil. -/
theorem HandleRequest_error_not_nil :
    (HandleRequest (lmdrouter.failing ⟨"route failed"⟩)
        { Config := { LogLevel := "info" }, Logger := zap.New (zapcore.NewCore .InfoLevel) }
        { Path := "/", HTTPMethod := "GET" }).returned =
      some ({ StatusCode := 500 }, some ⟨"route failed"⟩) ∧
    (HandleRequest (lmdrouter.failing ⟨"route failed"⟩)
        { Config := { LogLevel := "info" }, Logger := zap.New (zapcore.NewCore .InfoLevel) }
        { Path := "/", HTTPMethod := "GET" }).returned.map Prod.snd ≠ some none := by
  decide

/-- C3, amended: the error component of the result of `HandleRequest` is the
error of the dispatcher.  When the dispatcher fails with `err`, `HandleRequest`
returns the generic 500 response together with `err`; the error component is
nil only when the dispatcher reports no error. -/
theorem HandleRequest_error_component (L : Lmdrouter) (params : AppParams)
    (req : APIGatewayProxyRequest) :
    (∀ err, (L.Handle (NewRouter L) req).2 = some err →
      (HandleRequest L params req).returned = some ({ StatusCode := 500 }, some err)) ∧
    (∀ r e, (HandleRequest L params req).returned = some (r, e) →
      e = (L.Handle (NewRouter L) req).2) := by
  constructor
  · intro err h
    have h2 : L.Handle (NewRouter L) req = ((L.Handle (NewRouter L) req).1, some err) := by
      rw [← h]
    rw [HandleRequest_of_error L params req _ err h2]
  · intro r e hr
    cases hd : L.Handle (NewRouter L) req with
    | mk response oerr =>
      cases oerr with
      | some err =>
        rw [HandleRequest_of_error L params req _ err hd] at hr
        simp only [Option.some.injEq, Prod.mk.injEq] at hr
        exact hr.2.symm
      | none =>
        rw [HandleRequest_of_no_error L params req _ hd] at hr
        cases response with
        | none => simp at hr
        | some r0 =>
          simp only [Option.map_some', Option.some.injEq, Prod.mk.injEq] at hr
          exact hr.2.symm

/-- A concrete instance for C3. -/
theorem HandleRequest_error_component_witness :
    (HandleRequest (lmdrouter.failing ⟨"route failed"⟩)
        { Config := { LogLevel := "debug" }, Logger := zap.New (zapcore.NewCore .DebugLevel) }
        { Path := "/orders", HTTPMethod := "POST" }).returned =
      some ({ StatusCode := 500 }, some ⟨"route failed"⟩) :=
  (HandleRequest_error_component (lmdrouter.failing ⟨"route failed"⟩) _ _).1 ⟨"route failed"⟩ rfl

/-- C4: whenever the dispatcher succeeds with response `r`, `HandleRequest`
returns exactly `r`, no field altered, together with a nil error. -/
theorem HandleRequest_success_unchanged (L : Lmdrouter) (params : AppParams)
    (req : APIGatewayProxyRequest) (r : APIGatewayProxyResponse)
    (h : L.Handle (NewRouter L) req = (some r, none)) :
    (HandleRequest L params req).returned = some (r, none) := by
  rw [HandleRequest_of_no_error L params req _ h]
  rfl

/-- A concrete instance for C4. -/
theorem HandleRequest_success_unchanged_witness :
    (HandleRequest (lmdrouter.dispatcher "Not Found" "Method Not Allowed")
        { Config := { LogLevel := "warn" }, Logger := zap.New (zapcore.NewCore .WarnLevel) }
        { Path := "/", HTTPMethod := "POST" }).returned =
      some ({ StatusCode := 405, Body := "Method Not Allowed" }, none) :=
  HandleRequest_success_unchanged (lmdrouter.dispatcher "Not Found" "Method Not Allowed") _
    { Path := "/", HTTPMethod := "POST" } { StatusCode := 405, Body := "Method Not Allowed" }
    (by decide)

/-- C5: for every request whose path is not the only registered pattern "/",
the dispatcher of the specification on the router built by `NewRouter` returns
a response with status 404 and no error, and `HandleRequest` returns that
response with a nil error: the status is 404, not 200 or 500. -/
theorem dispatch_unmatched_404 (notFoundBody methodNotAllowedBody : String) (params : AppParams)
    (req : APIGatewayProxyRequest) (hp : req.Path ≠ "/") :
    ∃ r : APIGatewayProxyResponse, r.StatusCode = 404 ∧
      (lmdrouter.dispatcher notFoundBody methodNotAllowedBody).Handle
          (NewRouter (lmdrouter.dispatcher notFoundBody methodNotAllowedBody)) req =
        (some r, none) ∧
      (HandleRequest (lmdrouter.dispatcher notFoundBody methodNotAllowedBody) params
          req).returned = some (r, none) := by
  have h := dispatch_NewRouter notFoundBody methodNotAllowedBody req
  rw [if_neg hp] at h
  exact ⟨{ StatusCode := 404, Body := notFoundBody }, rfl, h,
    by rw [HandleRequest_of_no_error _ params req _ h]; rfl⟩

/-- A concrete instance for C5. -/
theorem dispatch_unmatched_404_witness :
    ∃ r : APIGatewayProxyResponse, r.StatusCode = 404 ∧
      (lmdrouter.dispatcher "Not Found" "Method Not Allowed").Handle
          (NewRouter (lmdrouter.dispatcher "Not Found" "Method Not Allowed"))
          { Path := "/missing", HTTPMethod := "GET" } = (some r, none) ∧
      (HandleRequest (lmdrouter.dispatcher "Not Found" "Method Not Allowed")
          { Config := { LogLevel := "info" }, Logger := zap.New (zapcore.NewCore .InfoLevel) }
          { Path := "/missing", HTTPMethod := "GET" }).returned = some (r, none) :=
  dispatch_unmatched_404 "Not Found" "Method Not Allowed" _
    { Path := "/missing", HTTPMethod := "GET" } (by decide)

/-! ## Log records -/

/-- The records of one call when the dispatcher fails, by whether the info and
the error severity pass the threshold of the logger. -/
theorem records_of_error (L : Lmdrouter) (params : AppParams) (req : APIGatewayProxyRequest)
    (err : GoError) (h : (L.Handle (NewRouter L) req).2 = some err) :
    (HandleRequest L params req).records =
      (if params.Logger.core.level.Enabled .InfoLevel then
        [{ Level := .InfoLevel, Message := "Handling request",
           Fields := params.Logger.core.fields ++
             [zap.String "correlation_id" req.RequestContext.RequestID] }]
       else []) ++
      (if params.Logger.core.level.Enabled .ErrorLevel then
        [{ Level := .ErrorLevel, Message := "Error handling request",
           Fields := params.Logger.core.fields ++
             [zap.String "correlation_id" req.RequestContext.RequestID, zap.Error err] }]
       else []) := by
  have h2 : L.Handle (NewRouter L) req = ((L.Handle (NewRouter L) req).1, some err) := by
    rw [← h]
  rw [HandleRequest_of_error L params req _ err h2]
  simp [zap.Logger.Info, zap.Logger.Error, zap.Logger.With, zapcore.Core.With, zapcore.Core.Write]

/-- The records of one call when the dispatcher reports no error. -/
theorem records_of_no_error (L : Lmdrouter) (params : AppParams) (req : APIGatewayProxyRequest)
    (h : (L.Handle (NewRouter L) req).2 = none) :
    (HandleRequest L params req).records =
      (if params.Logger.core.level.Enabled .InfoLevel then
        [{ Level := .InfoLevel, Message := "Handling request",
           Fields := params.Logger.core.fields ++
             [zap.String "correlation_id" req.RequestContext.RequestID] },
         { Level := .InfoLevel, Message := "Request handled successfully",
           Fields := params.Logger.core.fields ++
             [zap.String "correlation_id" req.RequestContext.RequestID] }]
       else []) := by
  have h2 : L.Handle (NewRouter L) req = ((L.Handle (NewRouter L) req).1, none) := by
    rw [← h]
  rw [HandleRequest_of_no_error L params req _ h2]
  by_cases hi : params.Logger.core.level.Enabled .InfoLevel = true <;>
    simp [zap.Logger.Info, zap.Logger.With, zapcore.Core.With, zapcore.Core.Write, hi]

/-- A threshold that lets the info severity pass lets the error severity
pass. -/
theorem Enabled_error_of_info (l : zapcore.Level) (h : l.Enabled .InfoLevel = true) :
    l.Enabled .ErrorLevel = true := by
  cases l <;> simp_all [zapcore.Level.Enabled, zapcore.Level.toInt]

/-- C6, as stated, fails: `NewLogger` accepts the level "error", and with that
logger a successful call of `HandleRequest` on `GET /` writes no record at all,
both of its records being of info severity. -/
theorem HandleRequest_error_threshold_silent :
    NewLogger strings.ToLower { LogLevel := "error" } =
      .ok (zap.New (zapcore.NewCore .ErrorLevel)) ∧
    (HandleRequest (lmdrouter.dispatcher "Not Found" "Method Not Allowed")
        { Config := { LogLevel := "error" }, Logger := zap.New (zapcore.NewCore .ErrorLevel) }
        { Path := "/", HTTPMethod := "GET", RequestContext := { RequestID := "req-1" } }).records =
      [] := by
  constructor
  · rfl
  · decide

/-- C6, amended: for every request and every logger produced by `NewLogger`
for the level "debug" or "info", one call of `HandleRequest` writes exactly two
records, "Handling request" first and then "Request handled successfully" or
"Error handling request". -/
theorem HandleRequest_two_records (toLower : String → String) (L : Lmdrouter)
    (params : AppParams) (req : APIGatewayProxyRequest)
    (hlev : params.Config.LogLevel = "debug" ∨ params.Config.LogLevel = "info")
    (hl : NewLogger toLower params.Config = .ok params.Logger) :
    2 ≤ (HandleRequest L params req).records.length ∧
    ∃ first second, (HandleRequest L params req).records = [first, second] ∧
      first.Message = "Handling request" ∧
      (second.Message = "Request handled successfully" ∨
        second.Message = "Error handling request") := by
  have hinfo : params.Logger.core.level.Enabled .InfoLevel = true := by
    rcases hlev with h | h <;>
      · simp only [NewLogger, zap.AtomicLevel.UnmarshalText, zapcore.Level.UnmarshalText,
          zapcore.Level.unmarshalText, h] at hl
        simp at hl
        rw [← hl]
        decide
  cases hd : (L.Handle (NewRouter L) req).2 with
  | some err =>
    rw [records_of_error L params req err hd, if_pos hinfo,
      if_pos (Enabled_error_of_info _ hinfo)]
    exact ⟨by simp, _, _, rfl, rfl, Or.inr rfl⟩
  | none =>
    rw [records_of_no_error L params req hd, if_pos hinfo]
    exact ⟨by simp, _, _, rfl, rfl, Or.inl rfl⟩

/-- A concrete instance for C6. -/
theorem HandleRequest_two_records_witness :
    2 ≤ (HandleRequest (lmdrouter.dispatcher "Not Found" "Method Not Allowed")
        { Config := { LogLevel := "debug" }, Logger := zap.New (zapcore.NewCore .DebugLevel) }
        { Path := "/missing", HTTPMethod := "GET" }).records.length ∧
    ∃ first second,
      (HandleRequest (lmdrouter.dispatcher "Not Found" "Method Not Allowed")
        { Config := { LogLevel := "debug" }, Logger := zap.New (zapcore.NewCore .DebugLevel) }
        { Path := "/missing", HTTPMethod := "GET" }).records = [first, second] ∧
      first.Message = "Handling request" ∧
      (second.Message = "Request handled successfully" ∨
        second.Message = "Error handling request") :=
  HandleRequest_two_records strings.ToLower (lmdrouter.dispatcher "Not Found" "Method Not Allowed")
    { Config := { LogLevel := "debug" }, Logger := zap.New (zapcore.NewCore .DebugLevel) }
    { Path := "/missing", HTTPMethod := "GET" } (Or.inl rfl) rfl

/-- C7: every record written by one call of `HandleRequest` carries the field
`correlation_id` with the `RequestContext.RequestID` of the request, after the
fields of the logger passed in `params`; the request-scoped logger is a new
value with the threshold of that logger and its fields plus the correlation
field, and what the logger of `params` itself writes keeps exactly its own
fields. -/
theorem HandleRequest_correlation_id (L : Lmdrouter) (params : AppParams)
    (req : APIGatewayProxyRequest) :
    (∀ e ∈ (HandleRequest L params req).records,
      zap.String "correlation_id" req.RequestContext.RequestID ∈ e.Fields ∧
      ∃ rest, e.Fields = params.Logger.core.fields ++
        zap.String "correlation_id" req.RequestContext.RequestID :: rest) ∧
    (params.Logger.With
        [zap.String "correlation_id" req.RequestContext.RequestID]).core.level =
      params.Logger.core.level ∧
    (params.Logger.With
        [zap.String "correlation_id" req.RequestContext.RequestID]).core.fields =
      params.Logger.core.fields ++ [zap.String "correlation_id" req.RequestContext.RequestID] ∧
    (∀ lvl msg fields, ∀ e ∈ params.Logger.core.Write lvl msg fields,
      e.Fields = params.Logger.core.fields ++ fields) := by
  refine ⟨?_, rfl, rfl, ?_⟩
  · intro e he
    cases hd : (L.Handle (NewRouter L) req).2 with
    | some err =>
      rw [records_of_error L params req err hd] at he
      by_cases hi : params.Logger.core.level.Enabled .InfoLevel = true <;>
        by_cases hr : params.Logger.core.level.Enabled .ErrorLevel = true <;>
        simp [hi, hr] at he
      all_goals
        first
          | (rcases he with he | he <;> subst he <;> simp)
          | (subst he; simp)
    | none =>
      rw [records_of_no_error L params req hd] at he
      by_cases hi : params.Logger.core.level.Enabled .InfoLevel = true <;> simp [hi] at he
      rcases he with he | he <;> subst he <;> simp
  · intro lvl msg fields e he
    unfold zapcore.Core.Write at he
    split at he
    · simp at he
      subst he
      rfl
    · simp at he

/-- C8, as stated, fails: `NewLogger` accepts the level "fatal", and with that
logger a call of `HandleRequest` whose dispatcher returns an error writes no
record, so no error-level record carries the error. -/
theorem HandleRequest_fatal_threshold_no_error_record :
    NewLogger strings.ToLower { LogLevel := "fatal" } =
      .ok (zap.New (zapcore.NewCore .FatalLevel)) ∧
    (HandleRequest (lmdrouter.failing ⟨"route failed"⟩)
        { Config := { LogLevel := "fatal" }, Logger := zap.New (zapcore.NewCore .FatalLevel) }
        { Path := "/", HTTPMethod := "GET", RequestContext := { RequestID := "req-1" } }).records =
      [] := by
  constructor
  · rfl
  · decide

/-- C8, amended: when the dispatcher returns an error `err` and the threshold
of the logger lets the error severity pass (debug, info, warn, error),
`HandleRequest` writes exactly one error-level record, "Error handling request"
with the field `error` holding the description of `err`; when the dispatcher
returns an error no "Request handled successfully" record is written, whatever
the threshold; when the dispatcher reports no error, no error-level record is
written. -/
theorem HandleRequest_error_record (L : Lmdrouter) (params : AppParams)
    (req : APIGatewayProxyRequest) :
    (∀ err, (L.Handle (NewRouter L) req).2 = some err →
      params.Logger.core.level.Enabled .ErrorLevel = true →
      (HandleRequest L params req).records.filter (fun e => e.Level = .ErrorLevel) =
        [{ Level := .ErrorLevel, Message := "Error handling request",
           Fields := params.Logger.core.fields ++
             [zap.String "correlation_id" req.RequestContext.RequestID,
              { Key := "error", Value := err.Error }] }]) ∧
    (∀ err, (L.Handle (NewRouter L) req).2 = some err →
      ∀ e ∈ (HandleRequest L params req).records, e.Message ≠ "Request handled successfully") ∧
    ((L.Handle (NewRouter L) req).2 = none →
      ∀ e ∈ (HandleRequest L params req).records, e.Level ≠ .ErrorLevel) := by
  refine ⟨?_, ?_, ?_⟩
  · intro err hd hr
    rw [records_of_error L params req err hd]
    by_cases hi : params.Logger.core.level.Enabled .InfoLevel = true <;>
      simp [hi, hr, List.filter, zap.Error]
  · intro err hd e he
    rw [records_of_error L params req err hd] at he
    by_cases hi : params.Logger.core.level.Enabled .InfoLevel = true <;>
      by_cases hr : params.Logger.core.level.Enabled .ErrorLevel = true <;>
      simp [hi, hr] at he
    all_goals
      first
        | (rcases he with he | he <;> subst he <;> simp)
        | (subst he; simp)
  · intro hd e he
    rw [records_of_no_error L params req hd] at he
    by_cases hi : params.Logger.core.level.Enabled .InfoLevel = true <;> simp [hi] at he
    rcases he with he | he <;> subst he <;> simp

/-- A concrete instance for C8. -/
theorem HandleRequest_error_record_witness :
    (HandleRequest (lmdrouter.failing ⟨"route failed"⟩)
        { Config := { LogLevel := "warn" }, Logger := zap.New (zapcore.NewCore .WarnLevel) }
        { Path := "/", HTTPMethod := "GET", RequestContext := { RequestID := "req-7" } }).records.filter
          (fun e => e.Level = .ErrorLevel) =
      [{ Level := .ErrorLevel, Message := "Error handling request",
         Fields := [zap.String "correlation_id" "req-7",
                    { Key := "error", Value := "route failed" }] }] :=
  (HandleRequest_error_record (lmdrouter.failing ⟨"route failed"⟩)
    { Config := { LogLevel := "warn" }, Logger := zap.New (zapcore.NewCore .WarnLevel) }
    { Path := "/", HTTPMethod := "GET", RequestContext := { RequestID := "req-7" } }).1
    ⟨"route failed"⟩ rfl (by decide)

/-! ## The logger factory -/

/-- A core writes nothing for a record whose severity is below its
threshold. -/
theorem Write_below_threshold (c : zapcore.Core) (sev : zapcore.Level) (msg : String)
    (fields : List zapcore.Field) (h : sev.toInt < c.level.toInt) :
    c.Write sev msg fields = [] := by
  have hn : ¬ (c.level.toInt ≤ sev.toInt) := not_le.mpr h
  simp [zapcore.Core.Write, zapcore.Level.Enabled, hn]

/-- C9, as stated, fails: "panic" and the empty string are not among debug,
info, warn, error and fatal, and `NewLogger` succeeds on both. -/
theorem NewLogger_accepts_panic_and_empty :
    NewLogger strings.ToLower { LogLevel := "panic" } =
      .ok (zap.New (zapcore.NewCore .PanicLevel)) ∧
    NewLogger strings.ToLower { LogLevel := "" } =
      .ok (zap.New (zapcore.NewCore .InfoLevel)) :=
  ⟨rfl, rfl⟩

/-- The spellings `Level.unmarshalText` recognises are exactly the lower-case
and upper-case names of the severities, "warning" for warn, and the empty
text. -/
theorem unmarshalText_eq_none_iff (t : String) :
    zapcore.Level.unmarshalText t = none ↔
      t ∉ ["debug", "DEBUG", "info", "INFO", "", "warn", "warning", "WARN", "WARNING", "error",
        "ERROR", "dpanic", "DPANIC", "panic", "PANIC", "fatal", "FATAL"] := by
  constructor
  · intro h ht
    simp only [List.mem_cons, List.mem_singleton, List.not_mem_nil, or_false] at ht
    rcases ht with e | e | e | e | e | e | e | e | e | e | e | e | e | e | e | e | e <;>
      subst e <;> exact absurd h (by decide)
  · intro ht
    simp only [List.mem_cons, List.mem_singleton, List.not_mem_nil, or_false, not_or] at ht
    simp [zapcore.Level.unmarshalText, ht]

/-- C9, amended: `NewLogger` succeeds for each of the level strings debug,
info, warn, error and fatal, with that severity as threshold, and the resulting
logger writes nothing for a record of a lower severity; it returns an error for
every level string that, neither as written nor lower-cased, is one of the
spellings the level parser recognises, namely debug, info, warn, warning,
error, dpanic, panic, fatal in lower case or in upper case, and the empty
string (so it returns an error for "verbose"). -/
theorem NewLogger_levels (toLower : String → String) :
    (∀ s lvl, (s, lvl) ∈ [("debug", zapcore.Level.DebugLevel), ("info", .InfoLevel),
        ("warn", .WarnLevel), ("error", .ErrorLevel), ("fatal", .FatalLevel)] →
      NewLogger toLower { LogLevel := s } = .ok (zap.New (zapcore.NewCore lvl)) ∧
      ∀ sev msg fields, sev.toInt < lvl.toInt →
        (zap.New (zapcore.NewCore lvl)).core.Write sev msg fields = []) ∧
    (∀ config : AppConfig,
      config.LogLevel ∉ ["debug", "DEBUG", "info", "INFO", "", "warn", "warning", "WARN",
          "WARNING", "error", "ERROR", "dpanic", "DPANIC", "panic", "PANIC", "fatal", "FATAL"] →
      toLower config.LogLevel ∉ ["debug", "DEBUG", "info", "INFO", "", "warn", "warning", "WARN",
          "WARNING", "error", "ERROR", "dpanic", "DPANIC", "panic", "PANIC", "fatal", "FATAL"] →
      ∃ err, NewLogger toLower config = .error err) := by
  refine ⟨?_, ?_⟩
  · intro s lvl h
    simp only [List.mem_cons, List.mem_singleton, List.not_mem_nil, or_false, Prod.mk.injEq] at h
    rcases h with ⟨hs, hl⟩ | ⟨hs, hl⟩ | ⟨hs, hl⟩ | ⟨hs, hl⟩ | ⟨hs, hl⟩ <;> subst hs <;> subst hl
    all_goals
      refine ⟨rfl, ?_⟩
      intro sev msg fields hlt
      exact Write_below_threshold _ sev msg fields hlt
  · intro config h1 h2
    exact ⟨⟨"unrecognized level: \"" ++ config.LogLevel ++ "\""⟩, by
      simp [NewLogger, zap.AtomicLevel.UnmarshalText, zapcore.Level.UnmarshalText,
        (unmarshalText_eq_none_iff _).mpr h1, (unmarshalText_eq_none_iff _).mpr h2]⟩

/-- A concrete instance for C9. -/
theorem NewLogger_levels_witness :
    ∃ err, NewLogger strings.ToLower { LogLevel := "verbose" } = .error err :=
  (NewLogger_levels strings.ToLower).2 { LogLevel := "verbose" } (by decide) (by decide)

/-! ## The configuration loader -/

/-- The settings that `viper.Unmarshal` decodes in `NewConfig`: the single key
`log_level`, holding the non-empty value of the environment variable
`LOG_LEVEL` or else the default "info". -/
theorem NewConfig_AllSettings (env : Environ) :
    ((viper.New.SetDefault "log_level" "info").AutomaticEnv).AllSettings env =
      [("log_level", (viper.getEnv env "LOG_LEVEL").getD "info")] := by
  have hl : strings.ToLower "log_level" = "log_level" := by decide
  have hu : strings.ToUpper "log_level" = "LOG_LEVEL" := by decide
  simp only [viper.Viper.AllSettings, viper.Viper.AllKeys, viper.Viper.find,
    viper.Viper.SetDefault, viper.Viper.AutomaticEnv, viper.New, hl, List.filter_nil,
    List.map_cons, List.map_nil, List.filterMap_cons, List.filterMap_nil, hu, if_true]
  cases viper.getEnv env "LOG_LEVEL" <;> simp [List.lookup]

/-- The configuration `NewConfig` returns, for every environment: decoding
finds no key for the field `LogLevel`, which keeps its zero value. -/
theorem NewConfig_value (env : Environ) : NewConfig env = .ok { LogLevel := "" } := by
  have hf : strings.EqualFold "log_level" "LogLevel" = false := by decide
  simp [NewConfig, viper.Viper.Unmarshal, NewConfig_AllSettings env, viper.decode, List.lookup,
    List.find?, hf]

/-- C10, as the code has it: for every process environment `NewConfig` returns
a configuration whose `LogLevel` is the empty string.  The value viper holds
under the key `log_level` (the variable `LOG_LEVEL`, or the default "info") is
never copied into the field, the key not being the field name `LogLevel` up to
case: with `LOG_LEVEL` unset the field is not "info", and with
`LOG_LEVEL=debug` it is not "debug". -/
theorem NewConfig_LogLevel_empty :
    (∀ env : Environ, NewConfig env = .ok { LogLevel := "" } ∧
      ((viper.New.SetDefault "log_level" "info").AutomaticEnv).AllSettings env =
        [("log_level", (viper.getEnv env "LOG_LEVEL").getD "info")]) ∧
    NewConfig [] ≠ .ok { LogLevel := "info" } ∧
    NewConfig [("LOG_LEVEL", "debug")] ≠ .ok { LogLevel := "debug" } := by
  refine ⟨fun env => ⟨NewConfig_value env, NewConfig_AllSettings env⟩, ?_, ?_⟩
  · rw [NewConfig_value]
    simp
  · rw [NewConfig_value]
    simp

/-- As `main` wires them, `NewLogger` applied to the configuration of
`NewConfig` builds a logger with the info threshold in every environment: the
empty level string is read as info. -/
theorem NewConfig_NewLogger_info (toLower : String → String) (env : Environ) :
    (NewConfig env).bind (NewLogger toLower) = .ok (zap.New (zapcore.NewCore .InfoLevel)) := by
  rw [NewConfig_value]
  rfl
